import Mathlib

/-!
Verification of the steganography-detection file validator
(`file_security.py`) of the Chat-Software-seguro backend.

The Python source is shallowly embedded: pure decision logic becomes Lean
functions over `ℚ` (the source's float arithmetic is plain rational
arithmetic at every point the theorems touch), byte strings become
`List ℕ`, and the orchestration of `validate_file` becomes a total
function from an abstract record of sub-analysis results to a
`SecurityReport`.  Python locals that can be read before assignment are
modelled with `Option`/`Except`: a read of an unassigned local is an
`UnboundLocalError` value that the surrounding handler observes, exactly
as CPython raises and the source's `except` blocks catch.  Analyses whose
numeric kernels are transcendental (`np.tanh`, `np.std`, Shannon entropy)
are parametrised by the already-computed value or by the kernel function
itself, and every theorem quantifies over those parameters.
-/

namespace FileSecurity

/-- `ThreatLevel` enumeration (file_security.py lines 53-59). -/
inductive ThreatLevel : Type
  | safe
  | low
  | medium
  | high
  | critical
deriving DecidableEq, Repr

/-- Position of a level in the `order` list of `_higher_threat`
(lines 820-823): SAFE < LOW < MEDIUM < HIGH < CRITICAL. -/
def ThreatLevel.idx : ThreatLevel → ℕ
  | .safe => 0
  | .low => 1
  | .medium => 2
  | .high => 3
  | .critical => 4

/-- `EnhancedFileSecurityValidator._higher_threat` (lines 818-827):
`return a if order.index(a) >= order.index(b) else b`. -/
def higher_threat (a b : ThreatLevel) : ThreatLevel :=
  if b.idx ≤ a.idx then a else b

/-- The `SecurityReport` dataclass (lines 62-71).  `metadata` keeps the
keys inserted into the metadata dict, in insertion order. -/
structure SecurityReport where
  is_safe : Bool
  threat_level : ThreatLevel
  confidence : ℚ
  issues : List String
  warnings : List String
  metadata : List String
  recommendations : List String
deriving DecidableEq, Repr

/-- Result record of `SteganographyDetector.adaptive_lsb_threshold`
(lines 207-211). -/
structure AdaptiveThresholds where
  minor : ℚ
  moderate : ℚ
  strong : ℚ
deriving DecidableEq, Repr

/-- `SteganographyDetector.adaptive_lsb_threshold` (lines 184-211).
The source receives the complexity dict; its two reads are
`complexity.get('complexity_score', 0.5)` and the upper-cased format
string, which are the two arguments here. -/
def adaptive_lsb_threshold (complexity_score : ℚ) (fmt : String) : AdaptiveThresholds :=
  let tolerance_factor0 : ℚ := 0.05 + complexity_score * 0.15
  let tolerance_factor : ℚ :=
    if fmt = "BMP" then tolerance_factor0 * 0.7
    else if fmt = "PNG" ∨ fmt = "WEBP" then tolerance_factor0 * 1.0
    else if fmt = "JPEG" then tolerance_factor0 * 1.3
    else tolerance_factor0
  let deviation_minor : ℚ := 0.20 + tolerance_factor * 0.5
  let deviation_moderate : ℚ := deviation_minor + 0.05 + tolerance_factor * 0.3
  let deviation_strong : ℚ := deviation_moderate + 0.07 + tolerance_factor * 0.2
  ⟨deviation_minor, deviation_moderate, deviation_strong⟩

/-- The `(base_threshold, stego_threshold)` pair chosen by
`SteganographyDetector.entropy_analysis` from the file size
(lines 679-687), starting from `entropy_threshold = 7.5` and
`stego_entropy_threshold = 7.8` (lines 79, 82). -/
def entropy_thresholds (file_size : ℕ) : ℚ × ℚ :=
  if file_size < 50000 then (7.5 + 0.2, 7.8 + 0.15)
  else if file_size > 500000 then (7.5, 7.8)
  else (7.5 + 0.1, 7.8 + 0.05)

/-- Decision tail of `SteganographyDetector.entropy_analysis`
(lines 670-701).  `entropy` stands for the Shannon entropy of all bytes
that lines 664-667 compute; the initial
`is_suspicious = entropy > 7.8` of line 670 is overwritten on every
branch of the ladder at lines 689-699 and so does not appear. -/
def entropy_analysis_result (entropy : ℚ) (file_size : ℕ) : Bool × ℚ :=
  let t := entropy_thresholds file_size
  if entropy > t.2 then (true, min ((entropy - t.2) / 0.3) 1)
  else if entropy > t.1 then (decide (entropy > t.1 + 0.3), (entropy - t.1) / 0.5)
  else (false, 0)

/-- Bool test that `sig` starts the list `l` (the head comparison Python
performs while searching `sig in content`). -/
def leadMatch {α : Type} [DecidableEq α] : List α → List α → Bool
  | [], _ => true
  | _ :: _, [] => false
  | a :: s, b :: t => decide (a = b) && leadMatch s t

/-- Bool substring test: Python's `sig in content` on byte strings. -/
def containsSeq {α : Type} [DecidableEq α] (sig : List α) : List α → Bool
  | [] => sig.isEmpty
  | b :: t => leadMatch sig (b :: t) || containsSeq sig t

/-- `self.stego_tool_signatures` (lines 813-816) as ASCII byte lists:
OpenStego, steghide, outguess, jsteg, F5-steganography, camouflage,
SilentEye. -/
def stego_tool_signatures : List (List ℕ) :=
  [[79, 112, 101, 110, 83, 116, 101, 103, 111],
   [115, 116, 101, 103, 104, 105, 100, 101],
   [111, 117, 116, 103, 117, 101, 115, 115],
   [106, 115, 116, 101, 103],
   [70, 53, 45, 115, 116, 101, 103, 97, 110, 111, 103, 114, 97, 112, 104, 121],
   [99, 97, 109, 111, 117, 102, 108, 97, 103, 101],
   [83, 105, 108, 101, 110, 116, 69, 121, 101]]

/-- `EnhancedFileSecurityValidator._scan_stego_signatures`
(lines 1102-1113): `content = f.read()` loads the ENTIRE file and each
signature is searched in it with `signature in content`. -/
def scan_stego_signatures (content : List ℕ) : Bool :=
  stego_tool_signatures.any fun sig => containsSeq sig content

/-- `np.mean` over a list, 0 for the empty list (the source guards all
its uses of the mean by non-emptiness). -/
def listMean (l : List ℚ) : ℚ :=
  if l = [] then 0 else l.sum / l.length

/-- The `non_zero` list of the fusion step (line 1363):
`[c for c in confidences.values() if c > 0]`, the dict iterating in
insertion order lsb, entropy, chi, freq (lines 1346-1351). -/
def fusion_non_zero (lsb entropy chi freq : ℚ) : List ℚ :=
  [lsb, entropy, chi, freq].filter fun c => decide (c > 0)

/-- `mean_c = np.mean(non_zero)` (line 1365). -/
def fusion_mean_c (lsb entropy chi freq : ℚ) : ℚ :=
  listMean (fusion_non_zero lsb entropy chi freq)

/-- The `rel_threshold` of the positive-method loop (lines 1394-1397):
`mean_c * 0.8` when `non_zero` is non-empty, else `0.3`. -/
def fusion_rel_threshold (lsb entropy chi freq : ℚ) : ℚ :=
  if fusion_non_zero lsb entropy chi freq ≠ [] then
    fusion_mean_c lsb entropy chi freq * 0.8
  else 0.3

/-- Whether one analyzer confidence `c` is counted into `method_flags`
(lines 1398-1399): `c > rel_threshold`. -/
def fusion_method_positive (c lsb entropy chi freq : ℚ) : Bool :=
  decide (c > fusion_rel_threshold lsb entropy chi freq)

/-- `method_flags` after the loop of lines 1390-1399. -/
def fusion_method_flags (lsb entropy chi freq : ℚ) : ℕ :=
  ([lsb, entropy, chi, freq].filter fun c =>
    fusion_method_positive c lsb entropy chi freq).length

/-- Modelled from the spec: the per-analyzer positive flag as §4.J words
it, `c_k > max(0.8·μ, 0.3)`, for comparison with the source's
`fusion_method_positive`. -/
def fusion_method_positive_spec (c lsb entropy chi freq : ℚ) : Bool :=
  decide (c > max (0.8 * fusion_mean_c lsb entropy chi freq) 0.3)

/-- The BMP declared-vs-real size consistency test of
`_analyze_bmp_structure` (line 1165): true when NO
"BMP: tamano declarado vs real inconsistente" issue is appended, i.e.
`not (abs(real_size - file_size) > max(1024, file_size * 0.03))`. -/
def bmp_size_ok_analyze (declared real : ℕ) : Bool :=
  decide (¬(|(real : ℚ) - declared| > max 1024 ((declared : ℚ) * 0.03)))

/-- The BMP declared-vs-real size test of `_verify_file_structure`
(lines 1546-1548): true when it does NOT `return False`, i.e.
`not (abs(real_size - file_size) > max(512, file_size * 0.02))`. -/
def bmp_size_ok_verify (declared real : ℕ) : Bool :=
  decide (¬(|(real : ℚ) - declared| > max 512 ((declared : ℚ) * 0.02)))

/-! The orchestrator `validate_file` (lines 829-1060).  The file-system
and image-decoding sub-analyses are abstracted into a `ValidateInput`
record of their results; the orchestration, issue collection and threat
combination are embedded step by step. -/

/-- Outcome record of `_analyze_image_steganography` as `validate_file`
consumes it: the top-level keys (lines 1201-1206) plus the per-method
`detected`/`confidence` entries of `details` read at
lines 866-873 and 900-919. -/
structure StegoResults where
  has_steganography : Bool
  confidence : ℚ
  warnings : List String
  lsb_detected : Bool
  lsb_confidence : ℚ
  chi_detected : Bool
  chi_confidence : ℚ
  freq_detected : Bool
  freq_confidence : ℚ
  entropy_detected : Bool
  entropy_confidence : ℚ
deriving DecidableEq, Repr

/-- Results of the I/O-bound sub-analyses of one `validate_file` call:
everything the orchestration of lines 841-1006 branches on. -/
structure ValidateInput where
  basic_passed : Bool
  basic_issues : List String
  stego_signature_found : Bool
  is_image : Bool
  mime_type_bmp : Bool
  stego : StegoResults
  visual_issues : List String
  bmp_ok : Bool
  bmp_issues : List String
  bmp_ext_mismatch : Bool
  metadata_issues : List String
  structure_ok : Bool
  file_size : ℕ
  entropy_detected : Bool
  entropy_confidence : ℚ
deriving DecidableEq, Repr

/-- Mutable state of the `validate_file` body (lines 834-839). -/
structure PipelineState where
  issues : List String
  warnings : List String
  recommendations : List String
  metadata : List String
  threat_level : ThreatLevel
  confidence_scores : List ℚ
deriving DecidableEq, Repr

/-- Initial state (lines 834-839). -/
def initState : PipelineState :=
  ⟨[], [], [], [], .safe, []⟩

def stego_signature_issue : String :=
  "Detectada firma de herramienta de esteganografia"

def stego_high_conf_issue : String :=
  "Esteganografia detectada con alta confianza"

def stego_detected_issue : String :=
  "Steganografia detectada"

def detected_methods_issue : String :=
  "Metodos que detectaron steganografia"

def ext_mismatch_issue : String :=
  "Extension .bmp no coincide con contenido real"

def structure_issue : String :=
  "Estructura de archivo corrupta o alterada"

def entropy_warning_msg : String :=
  "Entropia anormalmente alta"

def validation_error_issue (e : String) : String :=
  "Error durante validacion: " ++ e

/-- Step 1, basic validations (lines 842-847). -/
def step_basic (inp : ValidateInput) (s : PipelineState) : PipelineState :=
  if inp.basic_passed then s
  else { s with issues := s.issues ++ inp.basic_issues, threat_level := .high }

/-- Step 2, stego-tool signature scan (lines 849-853). -/
def step_signatures (inp : ValidateInput) (s : PipelineState) : PipelineState :=
  if inp.stego_signature_found then
    { s with issues := s.issues ++ [stego_signature_issue], threat_level := .critical }
  else s

/-- `positive_indicators` of lines 866-873: how many of the LSB,
chi-square and frequency analyses report `detected`. -/
def positive_indicators (st : StegoResults) : ℕ :=
  (if st.lsb_detected then 1 else 0) + (if st.chi_detected then 1 else 0) +
    (if st.freq_detected then 1 else 0)

/-- `detected_methods` of lines 907-919: LSB, entropy, chi-square, in
that order. -/
def detected_methods (st : StegoResults) : List String :=
  (if st.lsb_detected then ["LSB"] else []) ++
    (if st.entropy_detected then ["Entropia"] else []) ++
    (if st.chi_detected then ["Chi-cuadrado"] else [])

/-- The steganography decision of lines 863-924.  The middle branch
(lines 890-897, `elif stego_results['has_steganography']`) assigns
`threat_level = ThreatLevel.HIGH` directly, NOT through
`_higher_threat`. -/
def step_stego_decision (st : StegoResults) (s : PipelineState) : PipelineState :=
  if st.has_steganography ∧ st.confidence > 0.8 then
    if positive_indicators st ≥ 2 then
      { s with issues := s.issues ++ [stego_high_conf_issue],
               threat_level := .critical,
               recommendations := s.recommendations ++
                 ["Rechazar archivo - contenido oculto detectado con multiples metodos"] }
    else
      { s with warnings := s.warnings ++ ["Posible esteganografia detectada"],
               threat_level := if s.threat_level = .safe then .low else s.threat_level }
  else if st.has_steganography then
    let s1 : PipelineState :=
      { s with threat_level := .high,
               issues := s.issues ++ [stego_detected_issue],
               recommendations := s.recommendations ++
                 ["Rechazar archivo - contenido oculto detectado"] }
    if detected_methods st ≠ [] then
      { s1 with issues := s1.issues ++ [detected_methods_issue] }
    else s1
  else s

/-- Lines 926-930: propagate the analyzer warnings, record the metadata
key, append the combined confidence. -/
def step_stego_record (st : StegoResults) (s : PipelineState) : PipelineState :=
  let s1 : PipelineState :=
    if st.warnings ≠ [] then { s with warnings := s.warnings ++ st.warnings } else s
  { s1 with metadata := s1.metadata ++ ["steganography_analysis"],
            confidence_scores := s1.confidence_scores ++ [st.confidence] }

/-- Visual-attack results (lines 932-938). -/
def step_visual (inp : ValidateInput) (s : PipelineState) : PipelineState :=
  if inp.visual_issues ≠ [] then
    { s with warnings := s.warnings ++ inp.visual_issues,
             threat_level := if s.threat_level = .safe then .medium else s.threat_level }
  else s

/-- The rejection terms of lines 951-954 against which each BMP issue
string is tested with Python's `in`. -/
def bmp_reject_terms : List String :=
  ["firma JPEG", "firma PNG", "inconsistente", "offset", "relleno"]

/-- `any(term in bi for term in [...])` of lines 951-954. -/
def is_bmp_reject (bi : String) : Bool :=
  bmp_reject_terms.any fun t => containsSeq t.data bi.data

/-- One turn of the `for bi in bmp_issues` loop of lines 950-959. -/
def bmp_classify_step (acc : PipelineState) (bi : String) : PipelineState :=
  if is_bmp_reject bi then
    { acc with issues := acc.issues ++ [bi],
               threat_level := higher_threat acc.threat_level .high }
  else { acc with warnings := acc.warnings ++ [bi] }

/-- BMP structural analysis consumption (lines 940-959). -/
def step_bmp (inp : ValidateInput) (s : PipelineState) : PipelineState :=
  if inp.mime_type_bmp then
    let s0 : PipelineState := { s with metadata := s.metadata ++ ["bmp_structure"] }
    if ¬inp.bmp_ok then
      { s0 with issues := s0.issues ++ inp.bmp_issues,
                threat_level := higher_threat s0.threat_level .high }
    else
      inp.bmp_issues.foldl bmp_classify_step s0
  else s

/-- Extension/content mismatch for `.bmp` names (lines 961-976). -/
def step_ext_mismatch (inp : ValidateInput) (s : PipelineState) : PipelineState :=
  if inp.bmp_ext_mismatch then
    { s with issues := s.issues ++ [ext_mismatch_issue],
             threat_level := higher_threat s.threat_level .high }
  else s

/-- Step 3, the whole `if file_type == 'image':` block (lines 859-976). -/
def step_image (inp : ValidateInput) (s : PipelineState) : PipelineState :=
  if inp.is_image then
    step_ext_mismatch inp (step_bmp inp (step_visual inp
      (step_stego_record inp.stego (step_stego_decision inp.stego s))))
  else s

/-- Step 4, metadata analysis (lines 978-984). -/
def step_metadata (inp : ValidateInput) (s : PipelineState) : PipelineState :=
  if inp.metadata_issues ≠ [] then
    let s1 : PipelineState := { s with warnings := s.warnings ++ inp.metadata_issues }
    if inp.metadata_issues.length > 3 then
      { s1 with threat_level := higher_threat s1.threat_level .medium }
    else s1
  else s

/-- Step 5, structural integrity (lines 986-990). -/
def step_structure (inp : ValidateInput) (s : PipelineState) : PipelineState :=
  if ¬inp.structure_ok then
    { s with issues := s.issues ++ [structure_issue],
             threat_level := higher_threat s.threat_level .high }
  else s

/-- Step 6, whole-file entropy for files above 100 KB (lines 992-1006). -/
def step_entropy (inp : ValidateInput) (s : PipelineState) : PipelineState :=
  if inp.file_size > 100000 then
    if inp.entropy_detected ∧ inp.entropy_confidence > 0.5 then
      let s1 : PipelineState :=
        { s with warnings := s.warnings ++ [entropy_warning_msg],
                 confidence_scores := s.confidence_scores ++ [inp.entropy_confidence * 0.5] }
      if inp.entropy_confidence > 0.8 ∧ s1.threat_level = .safe then
        { s1 with threat_level := .low }
      else s1
    else s
  else s

/-- The six steps of the `try` body, in source order. -/
def pipeline (inp : ValidateInput) : PipelineState :=
  step_entropy inp (step_structure inp (step_metadata inp (step_image inp
    (step_signatures inp (step_basic inp initState)))))

/-- Lines 1008-1049: average confidence, the `is_safe` decision, the
recommendation block, the `needs_sanitization` key, and the final
`SecurityReport`. -/
def finalize_report (inp : ValidateInput) (s : PipelineState) : SecurityReport :=
  let avg : ℚ := listMean s.confidence_scores
  let safe : Bool :=
    decide (s.issues = [] ∧ (s.threat_level = .safe ∨ s.threat_level = .low))
  let recs1 : List String :=
    if safe then
      if s.warnings ≠ [] then
        s.recommendations ++ ["Archivo aprobado con advertencias - monitorear"]
      else s.recommendations ++ ["Archivo seguro para uso"]
    else if s.threat_level = .critical then
      s.recommendations ++ ["RECHAZAR INMEDIATAMENTE - Alto riesgo de seguridad"]
    else if s.threat_level = .high then
      s.recommendations ++ ["Rechazar archivo - multiples problemas de seguridad"]
    else s.recommendations ++ ["Requerir revision manual antes de aprobar"]
  let needs_san : Bool :=
    safe && inp.is_image && decide (s.warnings ≠ [] ∨ avg > 0.2)
  let recs2 : List String :=
    if needs_san then
      recs1 ++ ["Considerar re-encoding de la imagen para eliminar datos ocultos"]
    else recs1
  let md : List String :=
    if needs_san then s.metadata ++ ["needs_sanitization"] else s.metadata
  ⟨safe, s.threat_level, avg, s.issues, s.warnings, md, recs2⟩

/-- `validate_file` (lines 829-1060): the `try` body on a normal run, or
the `except` handler (lines 1051-1060) when an orchestrator-level
exception carrying message `e` occurs.  Total: every input yields a
`SecurityReport`, never an exception. -/
def validate_file : Except String ValidateInput → SecurityReport
  | .error e =>
      ⟨false, .high, 0, [validation_error_issue e], [], [],
        ["Rechazar archivo - error de validacion"]⟩
  | .ok inp => finalize_report inp (pipeline inp)

/-- The running threat level right after the stego-tool signature scan,
i.e. after the steps of lines 842-853. -/
def threat_after_signature_scan (inp : ValidateInput) : ThreatLevel :=
  (step_signatures inp (step_basic inp initState)).threat_level

/-! The scoring tail of `_analyze_image_steganography`
(lines 1404-1453) and the unbound local `dynamic_gate`. -/

def unbound_dynamic_gate_msg : String :=
  "UnboundLocalError: local variable dynamic_gate referenced before assignment"

def unbound_minor_thr_msg : String :=
  "UnboundLocalError: local variable minor_thr referenced before assignment"

/-- The state of `details['stegano_extraction']` after the Stegano
attempt of lines 1263-1274: `none` when the key is absent (stegano
missing, or a revealed secret of length at most 10, or no secret),
`some false` when `lsb.reveal` raised, `some true` when a secret longer
than 10 characters was revealed (which also pushed confidence 1.0). -/
def stegano_extraction_key (has_stegano : Bool) (reveal_raised : Bool)
    (secret : Option String) : Option Bool :=
  if ¬has_stegano then none
  else if reveal_raised then some false
  else match secret with
    | some s => if s.length > 10 then some true else none
    | none => none

/-- What the scoring record of lines 1447-1453 exposes. -/
structure ScoringOut where
  has_steganography : Bool
  composite_score : ℚ
  method_flags : ℕ
  strong_flags : ℕ
  dynamic_gate : ℚ
deriving DecidableEq, Repr

/-- Lines 1404-1453 of `_analyze_image_steganography`.  The local
`dynamic_gate` is `Option`-modelled: the extraction branch
(lines 1406-1412) never assigns it, the `else` branch (line 1424) does;
building the scoring record (line 1451) evaluates
`dynamic_gate if confidence_scores else 0.0`, and reading the unassigned
local is the `UnboundLocalError` that `validate_file`'s `except` catches.
`mean_conf_all` and `std_conf_all` stand for the float mean and standard
deviation of `confidence_scores` (lines 1421-1423). -/
def stego_scoring_tail (confidence_scores : List ℚ) (extraction : Option Bool)
    (has_steganography0 : Bool) (composite_score : ℚ)
    (method_flags strong_flags : ℕ) (mean_conf_all std_conf_all : ℚ)
    (lsb_conf entropy_conf comp_score : ℚ) :
    Except String ScoringOut :=
  let branch : Bool × ℚ × ℕ × ℕ × Option ℚ :=
    if extraction = some true then
      (true, max composite_score 0.95, method_flags, strong_flags + 1, none)
    else
      let entropy_high_pattern : Bool :=
        decide (entropy_conf > 0.55 ∧ lsb_conf < 0.1 ∧ comp_score < 0.65)
      let mf : ℕ := if entropy_high_pattern then method_flags + 1 else method_flags
      let dynamic_gate : ℚ := mean_conf_all + std_conf_all * 0.5
      let has1 : Bool :=
        if (mf ≥ 2 ∧ strong_flags ≥ 1) ∨ composite_score > dynamic_gate ∨
            entropy_high_pattern = true then true
        else if lsb_conf > 0.18 ∧ entropy_conf > mean_conf_all * 0.9 ∧
            composite_score > mean_conf_all * 1.1 then true
        else has_steganography0
      (has1, composite_score, mf, strong_flags, some dynamic_gate)
  if confidence_scores = [] then
    .ok ⟨branch.1, branch.2.1, branch.2.2.1, branch.2.2.2.1, 0⟩
  else
    match branch.2.2.2.2 with
    | some dg => .ok ⟨branch.1, branch.2.1, branch.2.2.1, branch.2.2.2.1, dg⟩
    | none => .error unbound_dynamic_gate_msg

/-- An exception raised inside `_analyze_image_steganography` while
`validate_file` runs it (line 861) propagates into `validate_file`'s
`try` and lands in the `except` handler; a normal scoring result flows
on into the rest of the pipeline. -/
def validate_file_with_scoring (tail_result : Except String ScoringOut)
    (mk : ScoringOut → ValidateInput) : SecurityReport :=
  match tail_result with
  | .error e => validate_file (.error e)
  | .ok out => validate_file (.ok (mk out))

/-! `SteganographyDetector.detect_lsb_steganography` (lines 477-593) and
the unbound local `minor_thr`. -/

/-- The body of `detect_lsb_steganography` after the LSB sample is
drawn (lines 513-589).  `tanh` stands for `np.tanh`.  Inputs: the LSB
sample size and its count of ones (lines 513-519), the image's original
format (line 487), the RS-analysis pair (line 522), the three
`lsb_sequence_metrics` values (lines 523-529), and the adaptive
thresholds (line 495).  Line 534 tests
`block_var < 0.0005 and deviation < minor_thr` with `minor_thr` only
assigned later at line 545, so whenever `block_var < 0.0005` the
short-circuit conjunction evaluates the unassigned local and raises. -/
def detect_lsb_body (tanh : ℚ → ℚ) (sample_size ones : ℕ)
    (original_format : String) (rs_detected : Bool) (rs_conf_in : ℚ)
    (autocorr block_var runs_z : ℚ) (adaptive : AdaptiveThresholds) :
    Except String (Bool × ℚ) :=
  if sample_size < 800 then .ok (false, 0)
  else
    let ratio_ones : ℚ := (ones : ℚ) / (sample_size : ℚ)
    let deviation : ℚ := |ratio_ones - 0.5|
    let rs_conf1 : ℚ :=
      if |autocorr| > 0.15 then rs_conf_in + 0.05 * min |autocorr| 0.5 else rs_conf_in
    if block_var < 0.0005 then .error unbound_minor_thr_msg
    else
      let rs_conf2 : ℚ := if |runs_z| > 2.2 then rs_conf1 + 0.07 else rs_conf1
      let bmp_adjust : ℚ := if original_format = "BMP" then 0.05 else 0
      let minor_thr : ℚ := adaptive.minor - bmp_adjust
      let moderate_thr : ℚ := adaptive.moderate - bmp_adjust
      let strong_thr : ℚ := adaptive.strong - bmp_adjust
      let step1 : ℚ × Bool :=
        if deviation ≥ strong_thr then
          (tanh ((deviation - strong_thr) * 6) * 0.6, true)
        else if deviation ≥ moderate_thr then
          (tanh ((deviation - moderate_thr) * 5) * 0.45,
            rs_detected && decide (rs_conf2 > 0.25))
        else if deviation ≥ minor_thr then
          (tanh ((deviation - minor_thr) * 4) * 0.25,
            rs_detected && decide (rs_conf2 > 0.35))
        else (0, false)
      let step2 : ℚ × Bool :=
        if rs_detected then
          (step1.1 + rs_conf2 * 0.4,
            if ¬step1.2 = true ∧ rs_conf2 > 0.55 ∧ deviation > minor_thr * 0.9 then
              true
            else step1.2)
        else step1
      let step3 : ℚ × Bool :=
        if sample_size < 4000 then
          (step2.1 * 0.6, if step2.1 * 0.6 < 0.3 then false else step2.2)
        else step2
      let pattern_window_low : ℚ := moderate_thr + (strong_thr - moderate_thr) * 0.15
      let pattern_window_high : ℚ := strong_thr + (strong_thr - moderate_thr) * 0.4
      let step4 : ℚ × Bool :=
        if pattern_window_low ≤ deviation ∧ deviation ≤ pattern_window_high then
          (step3.1 * 1.15, if rs_conf2 > 0.3 then true else step3.2)
        else step3
      .ok (step4.2, min (max step4.1 0) 1)

/-- `detect_lsb_steganography` as its callers see it: the `except`
handler of lines 591-593 turns any exception into `(False, 0.0)`. -/
def detect_lsb_steganography (tanh : ℚ → ℚ) (sample_size ones : ℕ)
    (original_format : String) (rs_detected : Bool) (rs_conf_in : ℚ)
    (autocorr block_var runs_z : ℚ) (adaptive : AdaptiveThresholds) :
    Bool × ℚ :=
  match detect_lsb_body tanh sample_size ones original_format rs_detected
      rs_conf_in autocorr block_var runs_z adaptive with
  | .error _ => (false, 0)
  | .ok r => r

/-! Concrete inputs used by the counterexamples and witnesses. -/

/-- An `_analyze_image_steganography` outcome with nothing detected. -/
def benign_stego : StegoResults :=
  ⟨false, 0, [], false, 0, false, 0, false, 0, false, 0⟩

/-- A fully benign `validate_file` input. -/
def sample_input : ValidateInput :=
  { basic_passed := true, basic_issues := [], stego_signature_found := false,
    is_image := false, mime_type_bmp := false, stego := benign_stego,
    visual_issues := [], bmp_ok := true, bmp_issues := [],
    bmp_ext_mismatch := false, metadata_issues := [], structure_ok := true,
    file_size := 0, entropy_detected := false, entropy_confidence := 0 }

/-- An image whose bytes carry a stego-tool signature (so the scan of
lines 849-853 fires) and whose steganography analysis reports
`has_steganography = True` with combined confidence 0 (at most 0.8),
only the LSB method positive; everything else benign. -/
def c2_cex_input : ValidateInput :=
  { basic_passed := true, basic_issues := [], stego_signature_found := true,
    is_image := true, mime_type_bmp := false,
    stego := { has_steganography := true, confidence := 0, warnings := [],
               lsb_detected := true, lsb_confidence := 0,
               chi_detected := false, chi_confidence := 0,
               freq_detected := false, freq_confidence := 0,
               entropy_detected := false, entropy_confidence := 0 },
    visual_issues := [], bmp_ok := true, bmp_issues := [],
    bmp_ext_mismatch := false, metadata_issues := [], structure_ok := true,
    file_size := 0, entropy_detected := false, entropy_confidence := 0 }

/-- The same input with no stego-tool signature in the file. -/
def c2_wit_input : ValidateInput :=
  { c2_cex_input with stego_signature_found := false }

/-- A BMP image (declared size 100000, real size 103000, a difference of
exactly `max(1024, 3% of declared) = 3000`) whose `_analyze_bmp_structure`
run reports no issue but whose `_verify_file_structure` run fails its
stricter `max(512, 2% of declared) = 2000` size test. -/
def c7_cex_input : ValidateInput :=
  { basic_passed := true, basic_issues := [], stego_signature_found := false,
    is_image := true, mime_type_bmp := true, stego := benign_stego,
    visual_issues := [], bmp_ok := true, bmp_issues := [],
    bmp_ext_mismatch := false, metadata_issues := [],
    structure_ok := bmp_size_ok_verify 100000 103000, file_size := 103000,
    entropy_detected := false, entropy_confidence := 0 }

/-- A clean 1 MiB file: 2^20 zero bytes. -/
def c6_clean : List ℕ := List.replicate (2 ^ 20) 0

/-- The same first 1 MiB followed by the bytes of `steghide`. -/
def c6_tail : List ℕ :=
  c6_clean ++ [115, 116, 101, 103, 104, 105, 100, 101]

/-! Helper lemmas. -/

theorem leadMatch_iff {α : Type} [DecidableEq α] (s l : List α) :
    leadMatch s l = true ↔ s <+: l := by
  induction s generalizing l with
  | nil => simp [leadMatch, List.nil_prefix]
  | cons a s ih =>
    cases l with
    | nil => simp [leadMatch]
    | cons b t => simp [leadMatch, List.cons_prefix_cons, ih]

theorem containsSeq_iff {α : Type} [DecidableEq α] (sig l : List α) :
    containsSeq sig l = true ↔ sig <:+: l := by
  induction l with
  | nil => simp [containsSeq, List.infix_nil, List.isEmpty_iff]
  | cons b t ih => simp [containsSeq, leadMatch_iff, ih, List.infix_cons_iff]

theorem containsSeq_replicate_zero (sig : List ℕ) (n x : ℕ)
    (hx : x ∈ sig) (hx0 : x ≠ 0) :
    containsSeq sig (List.replicate n 0) = false := by
  cases hcs : containsSeq sig (List.replicate n 0) with
  | false => rfl
  | true =>
    exact absurd (List.eq_of_mem_replicate
      (((containsSeq_iff sig _).mp hcs).subset hx)) hx0

theorem higher_threat_idx (a b : ThreatLevel) :
    (higher_threat a b).idx = max a.idx b.idx := by
  cases a <;> cases b <;> decide

theorem le_higher_threat_left (a b : ThreatLevel) :
    a.idx ≤ (higher_threat a b).idx := by
  cases a <;> cases b <;> decide

theorem idx_le_three_of_ne_critical (a : ThreatLevel) (h : a ≠ .critical) :
    a.idx ≤ 3 := by
  cases a
  · decide
  · decide
  · decide
  · decide
  · exact absurd rfl h

theorem step_stego_record_threat (st : StegoResults) (s : PipelineState) :
    (step_stego_record st s).threat_level = s.threat_level := by
  unfold step_stego_record
  split_ifs <;> rfl

theorem step_stego_decision_mono (st : StegoResults) (s : PipelineState)
    (h : s.threat_level ≠ .critical) :
    s.threat_level.idx ≤ (step_stego_decision st s).threat_level.idx := by
  unfold step_stego_decision
  split_ifs with h1 h2 h3 h4 h5
  · dsimp only
    exact le_trans (idx_le_three_of_ne_critical _ h) (by decide)
  · dsimp only
    rw [h3]
    decide
  · dsimp only
    exact le_refl _
  · dsimp only
    exact le_trans (idx_le_three_of_ne_critical _ h) (by decide)
  · dsimp only
    exact le_trans (idx_le_three_of_ne_critical _ h) (by decide)
  · exact le_refl _

theorem step_visual_mono (inp : ValidateInput) (s : PipelineState) :
    s.threat_level.idx ≤ (step_visual inp s).threat_level.idx := by
  unfold step_visual
  split_ifs with h1 h2
  · dsimp only
    rw [h2]
    decide
  · dsimp only
    exact le_refl _
  · exact le_refl _

theorem bmp_classify_step_mono (acc : PipelineState) (bi : String) :
    acc.threat_level.idx ≤ (bmp_classify_step acc bi).threat_level.idx := by
  unfold bmp_classify_step
  split_ifs
  · dsimp only
    exact le_higher_threat_left _ _
  · exact le_refl _

theorem foldl_bmp_classify_mono (l : List String) (s : PipelineState) :
    s.threat_level.idx ≤ (l.foldl bmp_classify_step s).threat_level.idx := by
  induction l generalizing s with
  | nil => exact le_refl _
  | cons bi t ih =>
    rw [List.foldl_cons]
    exact le_trans (bmp_classify_step_mono s bi) (ih (bmp_classify_step s bi))

theorem step_bmp_mono (inp : ValidateInput) (s : PipelineState) :
    s.threat_level.idx ≤ (step_bmp inp s).threat_level.idx := by
  unfold step_bmp
  split_ifs
  · dsimp only
    exact foldl_bmp_classify_mono inp.bmp_issues
      { s with metadata := s.metadata ++ ["bmp_structure"] }
  · dsimp only
    exact le_higher_threat_left _ _
  · exact le_refl _

theorem step_ext_mismatch_mono (inp : ValidateInput) (s : PipelineState) :
    s.threat_level.idx ≤ (step_ext_mismatch inp s).threat_level.idx := by
  unfold step_ext_mismatch
  split_ifs
  · dsimp only
    exact le_higher_threat_left _ _
  · exact le_refl _

theorem step_metadata_mono (inp : ValidateInput) (s : PipelineState) :
    s.threat_level.idx ≤ (step_metadata inp s).threat_level.idx := by
  unfold step_metadata
  split_ifs
  · dsimp only
    exact le_higher_threat_left _ _
  · dsimp only
    exact le_refl _
  · exact le_refl _

theorem step_structure_mono (inp : ValidateInput) (s : PipelineState) :
    s.threat_level.idx ≤ (step_structure inp s).threat_level.idx := by
  unfold step_structure
  split_ifs
  · exact le_refl _
  · dsimp only
    exact le_higher_threat_left _ _

theorem step_entropy_mono (inp : ValidateInput) (s : PipelineState) :
    s.threat_level.idx ≤ (step_entropy inp s).threat_level.idx := by
  unfold step_entropy
  split_ifs with h1 h2
  · dsimp only
    split_ifs with h3
    · dsimp only at h3 ⊢
      rw [h3.2]
      decide
    · exact le_refl _
  · exact le_refl _
  · exact le_refl _

theorem step_image_mono (inp : ValidateInput) (s : PipelineState)
    (h : s.threat_level ≠ .critical) :
    s.threat_level.idx ≤ (step_image inp s).threat_level.idx := by
  unfold step_image
  split_ifs
  · calc s.threat_level.idx
        ≤ (step_stego_decision inp.stego s).threat_level.idx :=
          step_stego_decision_mono _ _ h
      _ = (step_stego_record inp.stego
            (step_stego_decision inp.stego s)).threat_level.idx := by
          rw [step_stego_record_threat]
      _ ≤ (step_visual inp (step_stego_record inp.stego
            (step_stego_decision inp.stego s))).threat_level.idx :=
          step_visual_mono _ _
      _ ≤ (step_bmp inp (step_visual inp (step_stego_record inp.stego
            (step_stego_decision inp.stego s)))).threat_level.idx :=
          step_bmp_mono _ _
      _ ≤ (step_ext_mismatch inp (step_bmp inp (step_visual inp
            (step_stego_record inp.stego
              (step_stego_decision inp.stego s))))).threat_level.idx :=
          step_ext_mismatch_mono _ _
  · exact le_refl _

theorem bmp_tolerance_gap (d : ℕ) :
    max 512 ((d : ℚ) * 0.02) < max 1024 ((d : ℚ) * 0.03) := by
  have hd : (0 : ℚ) ≤ (d : ℚ) := Nat.cast_nonneg d
  rcases le_or_lt ((d : ℚ) * 0.03) 1024 with h | h
  · rw [max_eq_left h]
    rw [max_lt_iff]
    constructor
    · norm_num
    · nlinarith
  · rw [max_eq_right h.le, max_lt_iff]
    constructor
    · linarith
    · nlinarith [h]

/-! The claims. -/

/-- C1: for every `validate_file` run, normal or failing with an
internal error, the returned report satisfies
`is_safe = true` exactly when its issues list is empty and its threat
level is SAFE or LOW. -/
theorem C1_is_safe_iff_issues_empty_and_low_threat
    (r : Except String ValidateInput) :
    (validate_file r).is_safe = true ↔
      ((validate_file r).issues = [] ∧
        ((validate_file r).threat_level = .safe ∨
          (validate_file r).threat_level = .low)) := by
  cases r with
  | error e => simp [validate_file]
  | ok inp => simp [validate_file, finalize_report]

/-- C4: `validate_file` is a total function into `SecurityReport` (it
never raises to its caller), and on the internal-error path it returns
the catch-all report: not safe, threat HIGH, confidence 0, and exactly
the single issue built from the exception message. -/
theorem C4_error_path_catch_all (e : String) :
    (validate_file (.error e)).is_safe = false ∧
      (validate_file (.error e)).threat_level = .high ∧
      (validate_file (.error e)).confidence = 0 ∧
      (validate_file (.error e)).issues = [validation_error_issue e] :=
  ⟨rfl, rfl, rfl, rfl⟩

/-- C2 counterexample: an image file carrying a stego-tool signature
(threat CRITICAL after the signature scan) whose steganography analysis
reports `has_steganography` with confidence at most 0.8 ends with
threat HIGH: the pipeline step of lines 890-897 replaced the CRITICAL
with a strictly lower level, so the claimed monotonicity fails. -/
theorem C2_counterexample :
    threat_after_signature_scan c2_cex_input = .critical ∧
      (validate_file (.ok c2_cex_input)).threat_level = .high ∧
      ((validate_file (.ok c2_cex_input)).threat_level).idx <
        (threat_after_signature_scan c2_cex_input).idx := by
  refine ⟨rfl, ?_, ?_⟩ <;>
    norm_num [validate_file, finalize_report, pipeline, step_entropy,
      step_structure, step_metadata, step_image, step_ext_mismatch, step_bmp,
      step_visual, step_stego_record, step_stego_decision, step_signatures,
      step_basic, initState, detected_methods, positive_indicators,
      threat_after_signature_scan, c2_cex_input, ThreatLevel.idx]

/-- C2 amended: `_higher_threat` and the guarded assignments never
lower the running level, so whenever the stego-tool signature scan does
not fire (the only source of a CRITICAL before the image analysis),
every later step of `validate_file` preserves or raises the threat
level established after the basic checks and the signature scan. -/
theorem C2_threat_monotone_without_signature (inp : ValidateInput)
    (h : inp.stego_signature_found = false) :
    (threat_after_signature_scan inp).idx ≤
      (validate_file (.ok inp)).threat_level.idx := by
  have hs : step_signatures inp (step_basic inp initState) =
      step_basic inp initState := by
    unfold step_signatures
    rw [h]
    simp
  have hnc : (step_basic inp initState).threat_level ≠ .critical := by
    unfold step_basic initState
    split_ifs <;> dsimp only <;> intro hcon <;> cases hcon
  have hv : (validate_file (.ok inp)).threat_level =
      (pipeline inp).threat_level := rfl
  unfold threat_after_signature_scan
  rw [hv, hs]
  unfold pipeline
  rw [hs]
  calc (step_basic inp initState).threat_level.idx
      ≤ (step_image inp (step_basic inp initState)).threat_level.idx :=
        step_image_mono _ _ hnc
    _ ≤ (step_metadata inp
          (step_image inp (step_basic inp initState))).threat_level.idx :=
        step_metadata_mono _ _
    _ ≤ (step_structure inp (step_metadata inp
          (step_image inp (step_basic inp initState)))).threat_level.idx :=
        step_structure_mono _ _
    _ ≤ (step_entropy inp (step_structure inp (step_metadata inp
          (step_image inp (step_basic inp initState))))).threat_level.idx :=
        step_entropy_mono _ _

/-- C2 amended, witness: the counterexample input with the signature
removed runs monotonically. -/
theorem C2_threat_monotone_witness :
    c2_wit_input.stego_signature_found = false ∧
      (threat_after_signature_scan c2_wit_input).idx ≤
        (validate_file (.ok c2_wit_input)).threat_level.idx :=
  ⟨rfl, C2_threat_monotone_without_signature c2_wit_input rfl⟩

/-- C3 counterexample: at complexity score 1 (inside [0,1]) and format
PNG, `adaptive_lsb_threshold` returns `strong = 0.52`, violating the
claimed bound `strong < 0.5`. -/
theorem C3_counterexample :
    (adaptive_lsb_threshold 1 "PNG").strong = 0.52 ∧
      ¬((adaptive_lsb_threshold 1 "PNG").strong < 0.5) := by
  simp [adaptive_lsb_threshold]
  norm_num

/-- C3 amended: for every complexity score in [0,1] and every format
string, the thresholds satisfy `0 < minor < moderate < strong`, with
`strong ≤ 0.58`; the claimed bound `strong < 0.5` holds whenever the
format is BMP (but not in general). -/
theorem C3_threshold_chain (comp : ℚ) (fmt : String)
    (h0 : 0 ≤ comp) (h1 : comp ≤ 1) :
    0 < (adaptive_lsb_threshold comp fmt).minor ∧
      (adaptive_lsb_threshold comp fmt).minor <
        (adaptive_lsb_threshold comp fmt).moderate ∧
      (adaptive_lsb_threshold comp fmt).moderate <
        (adaptive_lsb_threshold comp fmt).strong ∧
      (adaptive_lsb_threshold comp fmt).strong ≤ 0.58 ∧
      (fmt = "BMP" → (adaptive_lsb_threshold comp fmt).strong < 0.5) := by
  unfold adaptive_lsb_threshold
  split_ifs with hb hp hj <;> dsimp only <;>
    refine ⟨by nlinarith, by nlinarith, by nlinarith, by nlinarith, ?_⟩
  · intro _
    nlinarith
  · intro hcon
    rw [hcon] at hp
    simp at hp
  · intro hcon
    rw [hcon] at hb
    simp at hb
  · intro hcon
    rw [hcon] at hb
    simp at hb

/-- C3 amended, witness at complexity 0.5 and format JPEG. -/
theorem C3_threshold_chain_witness :
    0 < (adaptive_lsb_threshold 0.5 "JPEG").minor ∧
      (adaptive_lsb_threshold 0.5 "JPEG").minor <
        (adaptive_lsb_threshold 0.5 "JPEG").moderate ∧
      (adaptive_lsb_threshold 0.5 "JPEG").moderate <
        (adaptive_lsb_threshold 0.5 "JPEG").strong ∧
      (adaptive_lsb_threshold 0.5 "JPEG").strong ≤ 0.58 ∧
      ("JPEG" = "BMP" → (adaptive_lsb_threshold 0.5 "JPEG").strong < 0.5) :=
  C3_threshold_chain 0.5 "JPEG" (by norm_num) (by norm_num)

/-- C5: for every computed Shannon entropy value and file size, the
entropy analysis reports detected exactly when the entropy exceeds the
size-adjusted stego threshold of `entropy_thresholds` (+0.2/+0.15 under
50 KB, +0.1/+0.05 between 50 KB and 500 KB, the base pair 7.5/7.8 above
500 KB), and in that case the confidence is the linear excess over the
stego threshold divided by 0.3, capped at 1. -/
theorem C5_entropy_detection_iff (e : ℚ) (n : ℕ) :
    ((entropy_analysis_result e n).1 = true ↔
        e > (entropy_thresholds n).2) ∧
      ((entropy_analysis_result e n).1 = true →
        (entropy_analysis_result e n).2 =
          min ((e - (entropy_thresholds n).2) / 0.3) 1) := by
  have hgap : (entropy_thresholds n).2 ≤ (entropy_thresholds n).1 + 0.3 := by
    unfold entropy_thresholds
    split_ifs <;> norm_num
  unfold entropy_analysis_result
  dsimp only
  split_ifs with h1 h2
  · simp [h1]
  · constructor
    · simp only [decide_eq_true_eq]
      constructor
      · intro hx
        linarith
      · intro hx
        exact absurd hx h1
    · simp only [decide_eq_true_eq]
      intro hx
      linarith
  · constructor
    · simp [h1]
    · intro hx
      cases hx

/-- C6 counterexample: two files with identical first 1 MiB (2^20
bytes): the clean one scans false, but the one whose `steghide` marker
lies entirely beyond the first 1 MiB scans true, so the scan is not
bounded by the first 1 MB (it reads the whole file). -/
theorem C6_counterexample :
    c6_clean.take (2 ^ 20) = c6_tail.take (2 ^ 20) ∧
      scan_stego_signatures c6_clean = false ∧
      scan_stego_signatures c6_tail = true := by
  have hlen : (2 : ℕ) ^ 20 = c6_clean.length := by
    rw [c6_clean, List.length_replicate]
  refine ⟨?_, ?_, ?_⟩
  · rw [hlen, List.take_length, c6_tail, List.take_left]
  · unfold scan_stego_signatures
    rw [List.any_eq_false]
    intro sig hsig
    rw [Bool.not_eq_true]
    rw [c6_clean]
    fin_cases hsig <;>
      exact containsSeq_replicate_zero _ _ _ (List.mem_cons_self _ _)
        (by norm_num)
  · unfold scan_stego_signatures
    rw [List.any_eq_true]
    refine ⟨[115, 116, 101, 103, 104, 105, 100, 101], ?_, ?_⟩
    · simp [stego_tool_signatures]
    · rw [containsSeq_iff, c6_tail]
      exact (List.suffix_append c6_clean _).isInfix

/-- C6 amended: the stego-tool signature scan is a pure function of the
file's entire byte content (hence idempotent and deterministic), and it
returns true exactly when one of the seven tool signatures occurs as a
contiguous byte substring anywhere in the file, not only in the first
1 MB. -/
theorem C6_scan_characterization (content : List ℕ) :
    scan_stego_signatures content = true ↔
      ∃ sig ∈ stego_tool_signatures, sig <:+: content := by
  simp only [scan_stego_signatures, List.any_eq_true, containsSeq_iff]

/-- C7 counterexample: a BMP with declared size 100000 and real size
103000 differs by exactly `max(1024, 3%) = 3000`; the
`_analyze_bmp_structure` size test accepts it, but the stricter
`max(512, 2%) = 2000` test of `_verify_file_structure` fails, so the
pipeline reports the corrupt-structure issue with threat HIGH instead
of accepting the file. -/
theorem C7_counterexample :
    bmp_size_ok_analyze 100000 103000 = true ∧
      bmp_size_ok_verify 100000 103000 = false ∧
      (validate_file (.ok c7_cex_input)).is_safe = false ∧
      (validate_file (.ok c7_cex_input)).threat_level = .high ∧
      structure_issue ∈ (validate_file (.ok c7_cex_input)).issues := by
  have ha : bmp_size_ok_analyze 100000 103000 = true := by
    simp only [bmp_size_ok_analyze, decide_eq_true_eq]
    push_cast
    rw [show |(103000 : ℚ) - 100000| = 3000 by norm_num]
    rw [max_eq_right (by norm_num : (1024 : ℚ) ≤ 100000 * 0.03)]
    norm_num
  have hv : bmp_size_ok_verify 100000 103000 = false := by
    simp only [bmp_size_ok_verify, decide_eq_false_iff_not, not_not]
    push_cast
    rw [show |(103000 : ℚ) - 100000| = 3000 by norm_num]
    rw [max_eq_right (by norm_num : (512 : ℚ) ≤ 100000 * 0.02)]
    norm_num
  refine ⟨ha, hv, ?_, ?_, ?_⟩ <;>
    norm_num [validate_file, finalize_report, pipeline, step_entropy,
      step_structure, step_metadata, step_image, step_ext_mismatch, step_bmp,
      step_visual, step_stego_record, step_stego_decision, step_signatures,
      step_basic, initState, c7_cex_input, benign_stego, hv, higher_threat,
      ThreatLevel.idx]

/-- C7 amended: a declared-vs-real difference of exactly
`max(1024, 3% of declared)` passes the `_analyze_bmp_structure` size
test and one byte beyond fails it, but every such boundary difference
already exceeds `_verify_file_structure`'s stricter
`max(512, 2% of declared)` tolerance, so the full pipeline rejects the
file as structurally corrupt; pipeline acceptance requires the
difference to stay within the stricter bound. -/
theorem C7_tolerance_boundary (d r r2 : ℕ)
    (h1 : |(r : ℚ) - d| = max 1024 ((d : ℚ) * 0.03))
    (h2 : |(r2 : ℚ) - d| = max 1024 ((d : ℚ) * 0.03) + 1) :
    bmp_size_ok_analyze d r = true ∧
      bmp_size_ok_verify d r = false ∧
      bmp_size_ok_analyze d r2 = false := by
  refine ⟨?_, ?_, ?_⟩
  · simp only [bmp_size_ok_analyze, decide_eq_true_eq]
    rw [h1]
    exact lt_irrefl _
  · simp only [bmp_size_ok_verify, decide_eq_false_iff_not, not_not]
    rw [h1]
    exact bmp_tolerance_gap d
  · simp only [bmp_size_ok_analyze, decide_eq_false_iff_not, not_not]
    rw [h2]
    linarith

/-- C7 amended, witness at declared 100000 with real sizes 103000 and
103001. -/
theorem C7_tolerance_boundary_witness :
    bmp_size_ok_analyze 100000 103000 = true ∧
      bmp_size_ok_verify 100000 103000 = false ∧
      bmp_size_ok_analyze 100000 103001 = false :=
  C7_tolerance_boundary 100000 103000 103001
    (by push_cast
        rw [max_eq_right (by norm_num : (1024 : ℚ) ≤ 100000 * 0.03)]
        norm_num)
    (by push_cast
        rw [max_eq_right (by norm_num : (1024 : ℚ) ≤ 100000 * 0.03)]
        norm_num)

/-- C8 counterexample: with confidences lsb = 0.2 and the others 0, the
mean of the positive confidences is 0.2, so the source's test
`c > 0.8·mean = 0.16` counts the LSB method positive, while the claimed
rule `c > max(0.8·mean, 0.3) = 0.3` does not. -/
theorem C8_counterexample :
    fusion_method_positive 0.2 0.2 0 0 0 = true ∧
      fusion_method_positive_spec 0.2 0.2 0 0 0 = false := by
  constructor
  · simp only [fusion_method_positive, fusion_rel_threshold, fusion_mean_c,
      fusion_non_zero, listMean]
    norm_num [List.filter_cons, List.filter_nil]
  · simp only [fusion_method_positive_spec, fusion_mean_c, fusion_non_zero,
      listMean]
    norm_num [List.filter_cons, List.filter_nil]

/-- C8 amended: with all four confidences nonnegative, a confidence `x`
that is one of them is counted positive exactly when some confidence is
strictly positive and `x` exceeds `0.8` times the mean of the strictly
positive confidences (the fixed floor 0.3 only applies when no
confidence is positive, in which case nothing is counted). -/
theorem C8_positive_flag (l e c f x : ℚ) (hl : 0 ≤ l) (he : 0 ≤ e)
    (hc : 0 ≤ c) (hf : 0 ≤ f) (hx : x = l ∨ x = e ∨ x = c ∨ x = f) :
    (fusion_method_positive x l e c f = true ↔
      ((0 < l ∨ 0 < e ∨ 0 < c ∨ 0 < f) ∧
        x > 0.8 * fusion_mean_c l e c f)) := by
  by_cases hz : 0 < l ∨ 0 < e ∨ 0 < c ∨ 0 < f
  · have hne : fusion_non_zero l e c f ≠ [] := by
      simp only [fusion_non_zero, ne_eq, List.filter_eq_nil_iff]
      push_neg
      rcases hz with h | h | h | h
      · exact ⟨l, by simp, by simpa using h⟩
      · exact ⟨e, by simp, by simpa using h⟩
      · exact ⟨c, by simp, by simpa using h⟩
      · exact ⟨f, by simp, by simpa using h⟩
    simp only [fusion_method_positive, fusion_rel_threshold, if_pos hne,
      decide_eq_true_eq]
    rw [mul_comm]
    simp [hz]
  · have h0 : l = 0 ∧ e = 0 ∧ c = 0 ∧ f = 0 := by
      push_neg at hz
      exact ⟨le_antisymm hz.1 hl, le_antisymm hz.2.1 he,
        le_antisymm hz.2.2.1 hc, le_antisymm hz.2.2.2 hf⟩
    have hx0 : x = 0 := by
      rcases hx with h | h | h | h <;> rw [h] <;> simp [h0.1, h0.2.1,
        h0.2.2.1, h0.2.2.2]
    have hnil : fusion_non_zero l e c f = [] := by
      rw [h0.1, h0.2.1, h0.2.2.1, h0.2.2.2]
      norm_num [fusion_non_zero, List.filter_cons, List.filter_nil]
    have hrel : fusion_rel_threshold l e c f = 0.3 := by
      simp [fusion_rel_threshold, hnil]
    simp only [fusion_method_positive, hrel, decide_eq_true_eq]
    constructor
    · intro hgt
      rw [hx0] at hgt
      norm_num at hgt
    · intro hco
      exact absurd hco.1 hz

/-- C8 amended, witness at lsb = 0.5, the rest 0 and x = 0.5. -/
theorem C8_positive_flag_witness :
    fusion_method_positive 0.5 0.5 0 0 0 = true ↔
      ((0 < (0.5 : ℚ) ∨ 0 < (0 : ℚ) ∨ 0 < (0 : ℚ) ∨ 0 < (0 : ℚ)) ∧
        (0.5 : ℚ) > 0.8 * fusion_mean_c 0.5 0 0 0) :=
  C8_positive_flag 0.5 0 0 0 0.5 (by norm_num) (by norm_num) (by norm_num)
    (by norm_num) (Or.inl rfl)

/-- C9: when the optional Stegano extraction reveals a hidden string
longer than 10 characters (so `details['stegano_extraction']` is set
true and confidence 1.0 is recorded), building the scoring record reads
the local `dynamic_gate`, which only the non-extraction branch assigns;
the resulting UnboundLocalError propagates into `validate_file`, which
answers with the generic catch-all report (not safe, threat HIGH, one
validation-error issue) instead of a report marking the steganography
as detected. -/
theorem C9_dynamic_gate_unbound (s : String) (hs : s.length > 10)
    (scores : List ℚ) (hn : scores ≠ []) (has0 : Bool) (cs : ℚ)
    (mf sf : ℕ) (mean sd lsbc entc compc : ℚ)
    (mk : ScoringOut → ValidateInput) :
    stego_scoring_tail scores (stegano_extraction_key true false (some s))
        has0 cs mf sf mean sd lsbc entc compc =
      .error unbound_dynamic_gate_msg ∧
      (validate_file_with_scoring
        (stego_scoring_tail scores (stegano_extraction_key true false (some s))
          has0 cs mf sf mean sd lsbc entc compc) mk).is_safe = false ∧
      (validate_file_with_scoring
        (stego_scoring_tail scores (stegano_extraction_key true false (some s))
          has0 cs mf sf mean sd lsbc entc compc) mk).threat_level = .high ∧
      (validate_file_with_scoring
        (stego_scoring_tail scores (stegano_extraction_key true false (some s))
          has0 cs mf sf mean sd lsbc entc compc) mk).issues =
        [validation_error_issue unbound_dynamic_gate_msg] := by
  have hkey : stegano_extraction_key true false (some s) = some true := by
    unfold stegano_extraction_key
    simp [hs]
  have htail : stego_scoring_tail scores
      (stegano_extraction_key true false (some s))
      has0 cs mf sf mean sd lsbc entc compc =
      .error unbound_dynamic_gate_msg := by
    unfold stego_scoring_tail
    rw [hkey]
    simp [hn]
  refine ⟨htail, ?_, ?_, ?_⟩ <;> rw [htail] <;> rfl

/-- C9 witness at a concrete 11-character revealed secret. -/
theorem C9_dynamic_gate_unbound_witness :
    stego_scoring_tail [1]
        (stegano_extraction_key true false (some "ABCDEFGHIJK"))
        true 0 0 0 0 0 0 0 0 =
      .error unbound_dynamic_gate_msg ∧
      (validate_file_with_scoring
        (stego_scoring_tail [1]
          (stegano_extraction_key true false (some "ABCDEFGHIJK"))
          true 0 0 0 0 0 0 0 0) (fun _ => sample_input)).is_safe = false ∧
      (validate_file_with_scoring
        (stego_scoring_tail [1]
          (stegano_extraction_key true false (some "ABCDEFGHIJK"))
          true 0 0 0 0 0 0 0 0) (fun _ => sample_input)).threat_level = .high ∧
      (validate_file_with_scoring
        (stego_scoring_tail [1]
          (stegano_extraction_key true false (some "ABCDEFGHIJK"))
          true 0 0 0 0 0 0 0 0) (fun _ => sample_input)).issues =
        [validation_error_issue unbound_dynamic_gate_msg] :=
  C9_dynamic_gate_unbound "ABCDEFGHIJK" (by decide) [1] (by simp) true 0 0 0
    0 0 0 0 0 (fun _ => sample_input)

/-- C10: whenever the LSB sample has at least 800 bits and the
red-channel sequence metrics give `block_variance_lsb < 0.0005`
(including the all-zero defaults returned for images with fewer than
1000 red-channel pixels), the condition of line 534 reads the local
`minor_thr` before its assignment at line 545; the handler of
lines 591-593 catches the resulting UnboundLocalError so
`detect_lsb_steganography` returns `(false, 0.0)` regardless of how far
the LSB ones-ratio deviates from 0.5. -/
theorem C10_minor_thr_unbound (tanh : ℚ → ℚ) (sample_size ones : ℕ)
    (fmt : String) (rs_det : Bool) (rs_conf : ℚ)
    (autocorr block_var runs_z : ℚ) (adaptive : AdaptiveThresholds)
    (hss : 800 ≤ sample_size) (hbv : block_var < 0.0005) :
    detect_lsb_steganography tanh sample_size ones fmt rs_det rs_conf
      autocorr block_var runs_z adaptive = (false, 0) := by
  unfold detect_lsb_steganography detect_lsb_body
  rw [if_neg (by omega : ¬sample_size < 800)]
  dsimp only
  rw [if_pos hbv]

/-- C10 witness: a sample of 800 bits that are all ones (ones-ratio 1,
deviation 0.5) with strong RS support still comes back `(false, 0)`. -/
theorem C10_minor_thr_unbound_witness :
    detect_lsb_steganography (fun q => q) 800 800 "PNG" true 1 0 0 0
      (adaptive_lsb_threshold 0.5 "PNG") = (false, 0) :=
  C10_minor_thr_unbound (fun q => q) 800 800 "PNG" true 1 0 0 0
    (adaptive_lsb_threshold 0.5 "PNG") (by norm_num) (by norm_num)

end FileSecurity
